import Mathlib

/-!
Verification of the training orchestration pipeline in
`src/LocalLLM.API/train.py` (LoRA fine-tuning script).

The Python source is shallowly embedded: pure functions become Lean
functions, the file system and process environment become explicit
parameters (`World`), exceptions become `Except`, and the external
libraries (tokenizer, Trainer) are modelled by their documented
contracts where the script relies on them.
-/

namespace Train

/-- Python exceptions that the modelled code can raise. -/
inductive PyError
  | valueError
deriving DecidableEq

/-- Models `os.path.join(a, b)` for the simple relative components used
by the script (no absolute-path or trailing-slash cases arise). -/
def joinPath (a b : String) : String := a ++ "/" ++ b

/-! ### Python string primitives

Python strings are sequences of code points; they are modelled on
`String.data : List Char` with structural recursion so that every
operation evaluates inside the kernel. -/

/-- `str.strip()` on a code-point list: drop leading and trailing
whitespace.  (Python strips a slightly larger Unicode whitespace class;
the extra code points do not occur in the data handled here.) -/
def stripChars (cs : List Char) : List Char :=
  ((cs.dropWhile Char.isWhitespace).reverse.dropWhile Char.isWhitespace).reverse

/-- Python `str.strip()`. -/
def pyStrip (s : String) : String := ⟨stripChars s.data⟩

/-- Python `str.lower()` (ASCII range, which covers every alias key). -/
def pyLower (s : String) : String := ⟨s.data.map Char.toLower⟩

/-- Python `str.replace(" ", "")`: remove every space. -/
def pyRemoveSpaces (s : String) : String := ⟨s.data.filter (fun c => c != ' ')⟩

/-- Python `str.startswith(pre)`. -/
def pyStartsWith (s pre : String) : Bool := pre.data.isPrefixOf s.data

/-- Python `str.split(sep)` for a one-character separator: splitting
never yields the empty list (`"".split("-") == [""]`). -/
def splitChars (sep : Char) : List Char → List (List Char)
  | [] => [[]]
  | c :: rest =>
    match splitChars sep rest with
    | [] => [[c]]
    | g :: gs => if c = sep then [] :: g :: gs else (c :: g) :: gs

/-- Python `s.split(sep)[-1]`. -/
def lastSplitPiece (sep : Char) (s : String) : String :=
  ⟨(splitChars sep s.data).getLastD s.data⟩

/-- Numeric value of a digit list (most significant first). -/
def digitsToNat (ds : List Char) : Nat :=
  ds.foldl (fun n c => 10 * n + (c.toNat - 48)) 0

/-- Models Python `int(str)`: strip whitespace, accept an optional
sign followed by at least one digit, otherwise raise `ValueError`
(modelled as `none`).  (Python additionally accepts digit-group
underscores, which never occur in checkpoint names.) -/
def pyParseInt (s : String) : Option Int :=
  let t := stripChars s.data
  let signAndDigits : Int × List Char :=
    match t with
    | '-' :: rest => (-1, rest)
    | '+' :: rest => (1, rest)
    | _ => (1, t)
  let ds := signAndDigits.2
  if ds ≠ [] ∧ ds.all Char.isDigit then some (signAndDigits.1 * digitsToNat ds)
  else none

/-! ## ModelIdentifierResolver (`normalize_base_model_id`, lines 75-95) -/

/-- The static alias table of `normalize_base_model_id` (lines 84-94),
as an association list in source order. -/
def aliases : List (String × String) :=
  [ ("llama3:8b", "meta-llama/Meta-Llama-3-8B-Instruct"),
    ("llama3:instruct", "meta-llama/Meta-Llama-3-8B-Instruct"),
    ("llama3.2:1b-instruct", "meta-llama/Llama-3.2-1B-Instruct"),
    ("llama3.2:3b-instruct", "meta-llama/Llama-3.2-3B-Instruct"),
    ("qwen2.5:0.5b", "Qwen/Qwen2.5-0.5B-Instruct"),
    ("qwen2.5:1.5b", "Qwen/Qwen2.5-1.5B-Instruct") ]

/-- The lookup key of `normalize_base_model_id`:
`s.strip().lower().replace(" ", "")` (line 82). -/
def normKey (s : String) : String :=
  pyRemoveSpaces (pyLower (pyStrip s))

/-- Embeds `normalize_base_model_id` (lines 75-95): empty input is
returned as is (`if not s: return s`); otherwise the normalized key is
looked up in the alias table, falling back to the stripped original
(`aliases.get(key, s.strip())`). -/
def normalize_base_model_id (s : String) : String :=
  if s = "" then s
  else ((aliases.lookup (normKey s)).getD (pyStrip s))

/-! ## CheckpointLocator (lines 219-224) -/

/-- The sort key of line 223:
`int(n.split("-")[-1]) if "-" in n else -1`.  `none` means the key
computation raises `ValueError`. -/
def ckptKey (n : String) : Option Int :=
  if n.data.contains '-' then pyParseInt (lastSplitPiece '-' n)
  else some (-1)

/-- The list-comprehension filter of line 221:
`[d for d in os.listdir(hf_out) if d.startswith("checkpoint-")]`. -/
def checkpointEntries (entries : List String) : List String :=
  entries.filter (fun d => pyStartsWith d "checkpoint-")

/-- Computes the sort key for every name, left to right, as CPython's
`list.sort(key=...)` does before comparing; the first key that raises
aborts the whole sort with that exception (`none`). -/
def decorate : List String → Option (List (String × Int))
  | [] => some []
  | n :: rest =>
    match ckptKey n with
    | none => none
    | some k =>
      match decorate rest with
      | none => none
      | some ps => some ((n, k) :: ps)

/-- Comparison of decorated entries by their integer sort key; Python's
`list.sort(key=...)` orders elements by exactly this relation. -/
def keyLE (a b : String × Int) : Prop := a.2 ≤ b.2

instance : DecidableRel keyLE :=
  fun a b => inferInstanceAs (Decidable (a.2 ≤ b.2))

instance : IsTotal (String × Int) keyLE :=
  ⟨fun a b => Int.le_total a.2 b.2⟩

instance : IsTrans (String × Int) keyLE :=
  ⟨fun _ _ _ h h2 => le_trans h h2⟩

/-- Embeds the checkpoint locator of lines 219-224: filter the directory
listing to `checkpoint-` prefixed names; if none, no checkpoint
(`ckpt = None`); otherwise sort the names by the integer suffix key
(a stable sort, as Python's) and take the last.  A key computation that
raises aborts with `ValueError`. -/
def find_latest_checkpoint (entries : List String) : Except PyError (Option String) :=
  let ckpts := checkpointEntries entries
  if ckpts = [] then .ok none
  else
    match decorate ckpts with
    | none => .error .valueError
    | some ps => .ok ((List.insertionSort keyLE ps).getLast?.map Prod.fst)

/-! ## Configuration merge (lines 102-110) -/

/-- Embeds the batch-size resolution of line 109:
`int(cfg.get("batch_size", cfg.get("bsz", args.bsz)))`.  The config
file is modelled as an association list of integer-valued keys. -/
def resolve_bsz (fileCfg : List (String × Int)) (argsBsz : Int) : Int :=
  (fileCfg.lookup "batch_size").getD ((fileCfg.lookup "bsz").getD argsBsz)

/-! ## DatasetBuilder (`load_jsonl_rows`, `build_dataset`, lines 39-73) -/

/-- One parsed JSONL record; `prompt` / `response` are `none` when the
key is absent (or JSON `null`, which `ex.get(...) or ""` treats the
same way). -/
structure Row where
  prompt : Option String
  response : Option String
deriving DecidableEq

/-- An external tokenizer (Hugging Face `AutoTokenizer`): a token-id
encoding of a string plus a pad token id. -/
structure Tokenizer where
  encode : String → List Nat
  padTokenId : Nat

/-- Embeds `to_text` (lines 54-57): missing fields become empty strings
via `ex.get(...) or ""`, both fields are stripped, and the record is
rendered as a single text. -/
def to_text (ex : Row) : String :=
  "User: " ++ pyStrip (ex.prompt.getD "") ++ "\nAssistant: " ++ pyStrip (ex.response.getD "")

/-- Models the external tokenizer call of lines 62-68 with
`truncation=True, padding="max_length", max_length=maxLen`: the id
sequence is truncated to `maxLen` and padded with the pad token up to
exactly `maxLen`. -/
def hfEncodeFixed (tk : Tokenizer) (maxLen : Nat) (text : String) : List Nat :=
  let ids := (tk.encode text).take maxLen
  ids ++ List.replicate (maxLen - ids.length) tk.padTokenId

/-- The attention mask accompanying `hfEncodeFixed`: 1 over real
tokens, 0 over padding. -/
def hfMask (tk : Tokenizer) (maxLen : Nat) (text : String) : List Nat :=
  let ids := (tk.encode text).take maxLen
  List.replicate ids.length 1 ++ List.replicate (maxLen - ids.length) 0

/-- One tokenized training example as produced by `tok` (lines 61-71). -/
structure TokenizedExample where
  input_ids : List Nat
  attention_mask : List Nat
  labels : List Nat
deriving DecidableEq

/-- Embeds `tok` (lines 61-71): tokenize with truncation and
pad-to-max, then `out["labels"] = out["input_ids"].copy()`. -/
def tok (tk : Tokenizer) (maxLen : Nat) (text : String) : TokenizedExample :=
  let ids := hfEncodeFixed tk maxLen text
  { input_ids := ids, attention_mask := hfMask tk maxLen text, labels := ids }

/-- Embeds `build_dataset` (lines 49-73) over already-parsed rows (the
JSONL reading of `load_jsonl_rows` is the file-system boundary;
`World.datasetRows` carries its result): render each row with
`to_text`, then map `tok` over the texts. -/
def build_dataset (tk : Tokenizer) (maxLen : Nat) (rows : List Row) : List TokenizedExample :=
  (rows.map to_text).map (tok tk maxLen)

/-! ## Orchestrator (`main`, lines 97-266) -/

/-- The resume flag of line 36: `choices=["auto","never","force"]`. -/
inductive ResumeMode
  | auto
  | never
  | force
deriving DecidableEq

/-- The resolved run configuration after the merge of lines 101-114
(CLI defaults overridden by optional config-file values).  `data` is
`none` when neither source provides a dataset path. -/
structure Config where
  data : Option String
  base : String
  outdir : String
  epochs : Nat
  bsz : Int
  max_length : Nat
  resume : ResumeMode

/-- The parts of the process environment that `main` consults: whether
the dataset path exists, the parsed rows of the dataset file (empty
file gives `[]`), the directory listing of `outdir/hf_out` after
`os.makedirs`, and whether `adapter_model.safetensors` exists after
`save_pretrained` (line 238's check). -/
structure World where
  dataPathExists : Bool
  datasetRows : List Row
  hfOutEntries : List String
  adapterExistsAfterSave : Bool

/-- The guard of line 124: `if not data_path or not os.path.exists(data_path)`
(`not data_path` is true for `None` and for the empty string). -/
def dataPathMissing (cfg : Config) (w : World) : Bool :=
  match cfg.data with
  | none => true
  | some p => p == "" || !w.dataPathExists

/-- The resolved base-model identifier of a run: lines 105/113 strip
the raw value, line 117 applies `normalize_base_model_id`. -/
def resolvedBase (cfg : Config) : String :=
  normalize_base_model_id (pyStrip cfg.base)

/-- How the training loop is started (lines 226-230): with
`resume_from_checkpoint=ckpt` or fresh from epoch zero. -/
inductive TrainAction
  | resumeFrom (path : String)
  | fresh
deriving DecidableEq

/-- Embeds the resume decision of lines 218-230: locate the latest
checkpoint under `hf_out`; resume from it when found, otherwise train
from scratch.  A locator exception propagates. -/
def resumeDecision (outdir : String) (entries : List String) : Except PyError TrainAction :=
  match find_latest_checkpoint entries with
  | .error e => .error e
  | .ok (some name) => .ok (.resumeFrom (joinPath (joinPath outdir "hf_out") name))
  | .ok none => .ok .fresh

/-- The exact `Modelfile` content written by lines 255-263. -/
def modelfileContent : String :=
  "FROM llama3:8b\n" ++
  "ADAPTER ./adapter_model.safetensors\n\n" ++
  "SYSTEM \"You are a concise E-commerce Returns & Refunds assistant. Stick strictly to policy.\"\n\n" ++
  "TEMPLATE \"User: \x7b\x7b \x7b\x7b .Prompt \x7d\x7d \x7d\x7d\nAssistant:\"\n\n" ++
  "PARAMETER temperature 0.2\n" ++
  "PARAMETER num_predict 256\n"

instance instDecEqExcept {ε α : Type} [DecidableEq ε] [DecidableEq α] :
    DecidableEq (Except ε α) := fun a b =>
  match a, b with
  | .error e, .error f =>
    if h : e = f then .isTrue (congrArg Except.error h)
    else .isFalse (fun c => h (Except.error.inj c))
  | .ok x, .ok y =>
    if h : x = y then .isTrue (congrArg Except.ok h)
    else .isFalse (fun c => h (Except.ok.inj c))
  | .error _, .ok _ => .isFalse (fun c => Except.noConfusion c)
  | .ok _, .error _ => .isFalse (fun c => Except.noConfusion c)

/-- The observable outcome of one `main` run: the return value of
`main` (`.error` = an exception escaped), how training was started
(`none` = the run never reached `trainer.train()`), the tokenized
training set handed to the Trainer, and the `Modelfile` content written
on success. -/
structure RunOutcome where
  result : Except PyError Nat
  trainAction : Option TrainAction
  trainSet : Option (List TokenizedExample)
  modelfileWritten : Option String
deriving DecidableEq

/-- Embeds the control flow of `main` (lines 97-266): dataset-path
guard returning 1 (lines 124-126), dataset build (line 170), resume
decision and training start (lines 218-230), adapter post-condition
returning 1 (lines 236-240), `Modelfile` write (lines 253-263), and
final return 0.  External loading/training steps that the claims do not
touch are modelled as succeeding; their failures would surface as
further `.error` outcomes. -/
def mainModel (cfg : Config) (tk : Tokenizer) (w : World) : RunOutcome :=
  if dataPathMissing cfg w then
    { result := .ok 1, trainAction := none, trainSet := none, modelfileWritten := none }
  else
    let train_ds := build_dataset tk cfg.max_length w.datasetRows
    match resumeDecision cfg.outdir w.hfOutEntries with
    | .error e =>
      { result := .error e, trainAction := none, trainSet := some train_ds,
        modelfileWritten := none }
    | .ok act =>
      if w.adapterExistsAfterSave then
        { result := .ok 0, trainAction := some act, trainSet := some train_ds,
          modelfileWritten := some modelfileContent }
      else
        { result := .ok 1, trainAction := some act, trainSet := some train_ds,
          modelfileWritten := none }

/-! ## Top-level exception handler (lines 268-286) -/

/-- Embeds the argument scan of lines 275-279: the first element equal
to `--outdir` that has a successor yields that successor; a trailing
`--outdir` with no successor fails the `i+1 < len(sys.argv)` test and
the loop moves past it (there is nothing after it). -/
def scanOutdirArgv : List String → Option String
  | [] => none
  | a :: rest =>
    if a = "--outdir" then
      match rest with
      | v :: _ => some v
      | [] => none
    else scanOutdirArgv rest

/-- The observable effect of the `except` block: an optional append of
text to a file, and whether the exception was re-raised. -/
structure HandlerEffect where
  errorWrite : Option (String × String)
  reraised : Bool
deriving DecidableEq

/-- Embeds the top-level handler of lines 271-286: scan `sys.argv` for
`--outdir`; when found, append the error text plus newline to
`error.txt` in that directory; in every case re-raise (`raise`,
line 286).  The inner `try/except pass` makes the write best-effort;
the modelled effect is the attempted write. -/
def topLevelHandler (argv : List String) (msg : String) : HandlerEffect :=
  match scanOutdirArgv argv with
  | some d => { errorWrite := some (joinPath d "error.txt", msg ++ "\n"), reraised := true }
  | none => { errorWrite := none, reraised := true }

/-! ## Concrete runs used to instantiate the theorems -/

/-- A representative resolved configuration (the CLI defaults of
lines 27-36 with a dataset supplied). -/
def cfgHappy : Config :=
  { data := some "data/train.jsonl", base := "meta-llama/Llama-3.2-1B-Instruct",
    outdir := "artifacts", epochs := 3, bsz := 1, max_length := 8, resume := .auto }

/-- A trivial concrete tokenizer for instantiations. -/
def tkTriv : Tokenizer :=
  { encode := fun s => List.replicate s.data.length 7, padTokenId := 0 }

/-- An environment in which the run succeeds end to end. -/
def wHappy : World :=
  { dataPathExists := true, datasetRows := [{ prompt := some "q", response := some "a" }],
    hfOutEntries := [], adapterExistsAfterSave := true }

/-- An environment whose dataset file exists but is empty. -/
def wEmptyData : World :=
  { dataPathExists := true, datasetRows := [],
    hfOutEntries := [], adapterExistsAfterSave := true }

/-- An environment whose `hf_out` already holds two checkpoints. -/
def wCkpt : World :=
  { dataPathExists := true, datasetRows := [{ prompt := some "q", response := some "a" }],
    hfOutEntries := ["checkpoint-5", "checkpoint-20"], adapterExistsAfterSave := true }

/-! ## Dataset lemmas -/

lemma length_hfEncodeFixed (tk : Tokenizer) (maxLen : Nat) (text : String) :
    (hfEncodeFixed tk maxLen text).length = maxLen := by
  simp only [hfEncodeFixed, List.length_append, List.length_replicate, List.length_take]
  omega

lemma length_hfMask (tk : Tokenizer) (maxLen : Nat) (text : String) :
    (hfMask tk maxLen text).length = maxLen := by
  simp only [hfMask, List.length_append, List.length_replicate, List.length_take]
  omega

/-- C4: every example produced by the dataset builder has input-id,
attention-mask and label sequences of length exactly `max_length`, and
the labels are identical to the input ids. -/
theorem build_dataset_fixed_length (tk : Tokenizer) (maxLen : Nat) (rows : List Row) :
    ∀ ex ∈ build_dataset tk maxLen rows,
      ex.input_ids.length = maxLen ∧ ex.attention_mask.length = maxLen
      ∧ ex.labels.length = maxLen ∧ ex.labels = ex.input_ids := by
  intro ex hex
  simp only [build_dataset, List.mem_map] at hex
  obtain ⟨t, _, rfl⟩ := hex
  exact ⟨length_hfEncodeFixed tk maxLen t, length_hfMask tk maxLen t,
    length_hfEncodeFixed tk maxLen t, rfl⟩

/-- Witness for C4 at a concrete tokenizer, row and `max_length`. -/
theorem build_dataset_fixed_length_witness :
    (tok tkTriv 4 (to_text { prompt := some "hi", response := some "there" })).input_ids.length = 4
    ∧ (tok tkTriv 4 (to_text { prompt := some "hi", response := some "there" })).labels
      = (tok tkTriv 4 (to_text { prompt := some "hi", response := some "there" })).input_ids := by
  have h := build_dataset_fixed_length tkTriv 4 [{ prompt := some "hi", response := some "there" }]
      (tok tkTriv 4 (to_text { prompt := some "hi", response := some "there" })) (by decide)
  exact ⟨h.1, h.2.2.2⟩

/-! ## ModelIdentifierResolver theorems -/

/-- C9: `normalize_base_model_id` is pure and total by construction;
for every input it builds the trimmed, space-free, lowercased key,
looks it up in the static alias table and falls back to the trimmed
original; `"Llama3:8B"` resolves to the full repository id and
`"custom/model-id"` passes through unchanged. -/
theorem normalize_base_model_id_spec :
    (∀ s : String, normalize_base_model_id s = (aliases.lookup (normKey s)).getD (pyStrip s))
    ∧ normalize_base_model_id "Llama3:8B" = "meta-llama/Meta-Llama-3-8B-Instruct"
    ∧ normalize_base_model_id "custom/model-id" = "custom/model-id" := by
  refine ⟨fun s => ?_, by decide, by decide⟩
  by_cases h : s = ""
  · subst h; decide
  · simp [normalize_base_model_id, h]

/-- Witness for C9 at the two quoted inputs. -/
theorem normalize_base_model_id_spec_witness :
    normalize_base_model_id "Llama3:8B" = "meta-llama/Meta-Llama-3-8B-Instruct"
    ∧ normalize_base_model_id "custom/model-id" = "custom/model-id" :=
  ⟨normalize_base_model_id_spec.2.1, normalize_base_model_id_spec.2.2⟩

/-! ## Configuration-merge theorems -/

/-- C10: the resolved batch size prefers the file's `batch_size` key,
then the file's `bsz` key, then the command-line value. -/
theorem resolve_bsz_precedence (fileCfg : List (String × Int)) (argsBsz : Int) :
    (∀ v, fileCfg.lookup "batch_size" = some v → resolve_bsz fileCfg argsBsz = v)
    ∧ (fileCfg.lookup "batch_size" = none →
        (∀ w, fileCfg.lookup "bsz" = some w → resolve_bsz fileCfg argsBsz = w)
        ∧ (fileCfg.lookup "bsz" = none → resolve_bsz fileCfg argsBsz = argsBsz)) := by
  refine ⟨fun v hv => ?_, fun h1 => ⟨fun w hw => ?_, fun h2 => ?_⟩⟩ <;>
    simp [resolve_bsz, *]

/-- Witness for C10: a file defining both keys resolves to
`batch_size`; one defining only `bsz` resolves to it; an empty file
falls back to the command-line value. -/
theorem resolve_bsz_precedence_witness :
    resolve_bsz [("batch_size", 8), ("bsz", 2)] 1 = 8
    ∧ resolve_bsz [("bsz", 2)] 1 = 2
    ∧ resolve_bsz [] 1 = 1 :=
  ⟨(resolve_bsz_precedence [("batch_size", 8), ("bsz", 2)] 1).1 8 (by decide),
   ((resolve_bsz_precedence [("bsz", 2)] 1).2 (by decide)).1 2 (by decide),
   ((resolve_bsz_precedence [] 1).2 (by decide)).2 (by decide)⟩

/-! ## CheckpointLocator theorems -/

/-- C2: on a directory holding `checkpoint-5`, `checkpoint-20` and
`checkpoint-abc` the locator raises `ValueError` instead of returning
`checkpoint-20`: the key of `checkpoint-abc` is `int("abc")`, because
the `-1` fallback of line 223 only fires for names without a dash,
which the `checkpoint-` prefix filter has already excluded. -/
theorem find_latest_checkpoint_raises_on_nonnumeric :
    find_latest_checkpoint ["checkpoint-5", "checkpoint-20", "checkpoint-abc"]
      = .error .valueError
    ∧ ckptKey "checkpoint-abc" = none
    ∧ find_latest_checkpoint ["checkpoint-5", "checkpoint-20"] = .ok (some "checkpoint-20") := by
  decide

lemma decorate_isSome : ∀ (l : List String), (∀ n ∈ l, (ckptKey n).isSome = true) →
    ∃ ps, decorate l = some ps
  | [], _ => ⟨[], rfl⟩
  | n :: rest, h => by
    obtain ⟨k, hk⟩ := Option.isSome_iff_exists.mp (h n (List.mem_cons_self n rest))
    obtain ⟨ps, hps⟩ := decorate_isSome rest (fun m hm => h m (List.mem_cons_of_mem _ hm))
    exact ⟨(n, k) :: ps, by simp [decorate, hk, hps]⟩

lemma decorate_mem_fst : ∀ (l : List String) (ps : List (String × Int)),
    decorate l = some ps → ∀ p ∈ ps, p.1 ∈ l ∧ ckptKey p.1 = some p.2
  | [], ps, h => by
    simp only [decorate, Option.some.injEq] at h
    subst h; simp
  | n :: rest, ps, h => by
    simp only [decorate] at h
    cases hk : ckptKey n with
    | none => rw [hk] at h; exact absurd h (by simp)
    | some k =>
      rw [hk] at h
      cases hd : decorate rest with
      | none => rw [hd] at h; exact absurd h (by simp)
      | some qs =>
        rw [hd] at h
        simp only [Option.some.injEq] at h
        subst h
        intro p hp
        rcases List.mem_cons.mp hp with h1 | h2
        · subst h1; exact ⟨List.mem_cons_self _ _, hk⟩
        · obtain ⟨h3, h4⟩ := decorate_mem_fst rest qs hd p h2
          exact ⟨List.mem_cons_of_mem _ h3, h4⟩

lemma decorate_mem_name : ∀ (l : List String) (ps : List (String × Int)),
    decorate l = some ps → ∀ n ∈ l, ∃ k, ckptKey n = some k ∧ (n, k) ∈ ps
  | [], _, _ => by simp
  | n :: rest, ps, h => by
    simp only [decorate] at h
    cases hk : ckptKey n with
    | none => rw [hk] at h; exact absurd h (by simp)
    | some k =>
      rw [hk] at h
      cases hd : decorate rest with
      | none => rw [hd] at h; exact absurd h (by simp)
      | some qs =>
        rw [hd] at h
        simp only [Option.some.injEq] at h
        subst h
        intro m hm
        rcases List.mem_cons.mp hm with h1 | h2
        · subst h1; exact ⟨k, hk, List.mem_cons_self _ _⟩
        · obtain ⟨j, hj1, hj2⟩ := decorate_mem_name rest qs hd m h2
          exact ⟨j, hj1, List.mem_cons_of_mem _ hj2⟩

lemma decorate_ne_nil (l : List String) (ps : List (String × Int))
    (h : decorate l = some ps) (hl : l ≠ []) : ps ≠ [] := by
  cases l with
  | nil => exact absurd rfl hl
  | cons n rest =>
    obtain ⟨k, _, hmem⟩ := decorate_mem_name _ _ h n (List.mem_cons_self n rest)
    exact List.ne_nil_of_mem hmem

/-- In a `Pairwise r` list, every element is the last one or is related
to it. -/
lemma pairwise_rel_getLast {α : Type} {r : α → α → Prop} :
    ∀ (l : List α), l.Pairwise r → ∀ b, l.getLast? = some b → ∀ x ∈ l, x = b ∨ r x b
  | [], _, b, hb => by simp at hb
  | [a], _, b, hb => by
    intro x hx
    rcases List.mem_singleton.mp hx with rfl
    simp only [List.getLast?_singleton, Option.some.injEq] at hb
    exact Or.inl hb
  | a :: c :: t, hp, b, hb => by
    rw [List.getLast?_cons_cons] at hb
    intro x hx
    rcases List.mem_cons.mp hx with rfl | hx2
    · right
      have hbmem : b ∈ c :: t := by
        obtain ⟨hne, heq⟩ := List.mem_getLast?_eq_getLast (by rw [hb]; rfl)
        exact heq ▸ List.getLast_mem hne
      exact (List.pairwise_cons.mp hp).1 b hbmem
    · exact pairwise_rel_getLast (c :: t) (List.pairwise_cons.mp hp).2 b hb x hx2

lemma getLast?_isSome_of_ne_nil {α : Type} (l : List α) (h : l ≠ []) :
    ∃ b, l.getLast? = some b :=
  ⟨l.getLast h, List.getLast?_eq_getLast_of_ne_nil h⟩

lemma find_latest_checkpoint_of_no_checkpoints (entries : List String)
    (h : checkpointEntries entries = []) :
    find_latest_checkpoint entries = .ok none := by
  simp [find_latest_checkpoint, h]

/-- When every checkpoint name has a computable integer key, the
locator returns a checkpoint whose key is maximal. -/
lemma find_latest_checkpoint_max (entries : List String)
    (hne : checkpointEntries entries ≠ [])
    (hall : ∀ n ∈ checkpointEntries entries, (ckptKey n).isSome = true) :
    ∃ best k, find_latest_checkpoint entries = .ok (some best)
      ∧ best ∈ checkpointEntries entries
      ∧ ckptKey best = some k
      ∧ ∀ n ∈ checkpointEntries entries, ∀ j, ckptKey n = some j → j ≤ k := by
  obtain ⟨ps, hps⟩ := decorate_isSome _ hall
  have hps_ne : ps ≠ [] := decorate_ne_nil _ _ hps hne
  have hsort_ne : List.insertionSort keyLE ps ≠ [] := by
    intro hs
    have hlen := List.length_insertionSort keyLE ps
    rw [hs] at hlen
    exact hps_ne (List.eq_nil_of_length_eq_zero hlen.symm)
  obtain ⟨b, hb⟩ := getLast?_isSome_of_ne_nil _ hsort_ne
  have hsorted : (List.insertionSort keyLE ps).Pairwise keyLE :=
    List.sorted_insertionSort keyLE ps
  have hbmem : b ∈ ps := (List.mem_insertionSort keyLE).mp (by
    obtain ⟨hne2, heq⟩ := List.mem_getLast?_eq_getLast (by rw [hb]; rfl)
    exact heq ▸ List.getLast_mem hne2)
  obtain ⟨hb1, hb2⟩ := decorate_mem_fst _ _ hps b hbmem
  refine ⟨b.1, b.2, ?_, hb1, hb2, ?_⟩
  · simp [find_latest_checkpoint, hne, hps, hb]
  · intro n hn j hj
    obtain ⟨k, hk, hmem⟩ := decorate_mem_name _ _ hps n hn
    have hkj : k = j := by rw [hk] at hj; exact Option.some.inj hj
    subst hkj
    have hmem2 : (n, k) ∈ List.insertionSort keyLE ps :=
      (List.mem_insertionSort keyLE).mpr hmem
    rcases pairwise_rel_getLast _ hsorted b hb (n, k) hmem2 with heq | hle
    · rw [← heq]
    · exact hle

/-! ## Orchestrator lemmas -/

lemma mainModel_trainAction_of_ok (cfg : Config) (tk : Tokenizer) (w : World)
    (act : TrainAction) (hd : dataPathMissing cfg w = false)
    (hr : resumeDecision cfg.outdir w.hfOutEntries = .ok act) :
    (mainModel cfg tk w).trainAction = some act := by
  cases ha : w.adapterExistsAfterSave <;> simp [mainModel, hd, hr, ha]

/-- C3: when the training output location holds checkpoint
subdirectories (all with numeric suffixes, as prior runs produce),
`trainer.train` is started with `resume_from_checkpoint` pointing at a
checkpoint of maximal numeric suffix; when no checkpoint subdirectory
exists, training starts fresh from epoch zero. -/
theorem resume_from_latest (cfg : Config) (tk : Tokenizer) (w : World)
    (hd : dataPathMissing cfg w = false) :
    (checkpointEntries w.hfOutEntries = [] →
      (mainModel cfg tk w).trainAction = some TrainAction.fresh)
    ∧ (checkpointEntries w.hfOutEntries ≠ [] →
       (∀ n ∈ checkpointEntries w.hfOutEntries, (ckptKey n).isSome = true) →
       ∃ best k,
         (mainModel cfg tk w).trainAction
           = some (TrainAction.resumeFrom (joinPath (joinPath cfg.outdir "hf_out") best))
         ∧ best ∈ checkpointEntries w.hfOutEntries
         ∧ ckptKey best = some k
         ∧ ∀ n ∈ checkpointEntries w.hfOutEntries, ∀ j, ckptKey n = some j → j ≤ k) := by
  constructor
  · intro hempty
    have hloc := find_latest_checkpoint_of_no_checkpoints w.hfOutEntries hempty
    exact mainModel_trainAction_of_ok cfg tk w .fresh hd (by simp [resumeDecision, hloc])
  · intro hne hall
    obtain ⟨best, k, hloc, hmem, hkey, hmax⟩ := find_latest_checkpoint_max _ hne hall
    refine ⟨best, k, ?_, hmem, hkey, hmax⟩
    exact mainModel_trainAction_of_ok cfg tk w _ hd (by simp [resumeDecision, hloc])

/-- Witness for C3: with `checkpoint-5` and `checkpoint-20` present the
run resumes from the maximal-suffix checkpoint. -/
theorem resume_from_latest_witness :
    ∃ best k,
      (mainModel cfgHappy tkTriv wCkpt).trainAction
        = some (TrainAction.resumeFrom (joinPath (joinPath cfgHappy.outdir "hf_out") best))
      ∧ best ∈ checkpointEntries wCkpt.hfOutEntries
      ∧ ckptKey best = some k
      ∧ ∀ n ∈ checkpointEntries wCkpt.hfOutEntries, ∀ j, ckptKey n = some j → j ≤ k :=
  (resume_from_latest cfgHappy tkTriv wCkpt (by decide)).2 (by decide) (by decide)

/-- C5: `main` returns 0 exactly on a run that finds the dataset,
completes the resume decision without an exception and observes the
adapter weight file after the save; it returns 1 exactly when the
dataset path is missing or when the adapter weight file is absent after
the save step; an exception escaping (`.error`) is a distinct third
outcome, occurring exactly when the checkpoint sort raises. -/
theorem exit_codes (cfg : Config) (tk : Tokenizer) (w : World) :
    ((mainModel cfg tk w).result = .ok 0 ↔
      dataPathMissing cfg w = false
      ∧ (∃ a, resumeDecision cfg.outdir w.hfOutEntries = .ok a)
      ∧ w.adapterExistsAfterSave = true)
    ∧ ((mainModel cfg tk w).result = .ok 1 ↔
      dataPathMissing cfg w = true
      ∨ ((∃ a, resumeDecision cfg.outdir w.hfOutEntries = .ok a)
         ∧ w.adapterExistsAfterSave = false))
    ∧ (∀ e, (mainModel cfg tk w).result = .error e ↔
      dataPathMissing cfg w = false
      ∧ resumeDecision cfg.outdir w.hfOutEntries = .error e) := by
  by_cases hd : dataPathMissing cfg w
  · cases hr : resumeDecision cfg.outdir w.hfOutEntries <;>
      cases ha : w.adapterExistsAfterSave <;>
        simp [mainModel, hd, hr, ha]
  · cases hr : resumeDecision cfg.outdir w.hfOutEntries <;>
      cases ha : w.adapterExistsAfterSave <;>
        simp [mainModel, hd, hr, ha]

/-- Witness for C5: the happy run returns 0; the same run with no
dataset path returns 1; the same run with the adapter file missing
after the save returns 1. -/
theorem exit_codes_witness :
    (mainModel cfgHappy tkTriv wHappy).result = .ok 0
    ∧ (mainModel { cfgHappy with data := none } tkTriv wHappy).result = .ok 1
    ∧ (mainModel cfgHappy tkTriv
        { wHappy with adapterExistsAfterSave := false }).result = .ok 1 :=
  ⟨(exit_codes cfgHappy tkTriv wHappy).1.mpr
      ⟨by decide, ⟨.fresh, by decide⟩, by decide⟩,
   (exit_codes { cfgHappy with data := none } tkTriv wHappy).2.1.mpr (Or.inl (by decide)),
   (exit_codes cfgHappy tkTriv { wHappy with adapterExistsAfterSave := false }).2.1.mpr
      (Or.inr ⟨⟨.fresh, by decide⟩, by decide⟩)⟩

/-- C6 counterexample: a run whose dataset file exists but is empty
still reaches the training step — `main` never checks that the parsed
row list is non-empty, so training is started on an empty training
set.  The universally quantified form of the claim is therefore
false. -/
theorem empty_dataset_still_trains :
    (mainModel cfgHappy tkTriv wEmptyData).trainAction = some TrainAction.fresh
    ∧ (mainModel cfgHappy tkTriv wEmptyData).trainSet = some []
    ∧ ¬ (∀ (cfg : Config) (tk : Tokenizer) (w : World),
        (mainModel cfg tk w).trainAction ≠ none → w.datasetRows ≠ []) := by
  refine ⟨by decide, by decide, fun hcl => ?_⟩
  exact hcl cfgHappy tkTriv wEmptyData (by decide) rfl

/-- C6 (amended): a run that reaches the training loop necessarily has
an existing, non-falsy dataset path; emptiness of the dataset file is
not checked and does not prevent the training step. -/
theorem training_requires_dataset_path (cfg : Config) (tk : Tokenizer) (w : World)
    (h : (mainModel cfg tk w).trainAction ≠ none) :
    dataPathMissing cfg w = false := by
  cases hd : dataPathMissing cfg w
  · rfl
  · exact absurd (by simp [mainModel, hd]) h

/-- Witness for the amended C6 at the successful concrete run. -/
theorem training_requires_dataset_path_witness :
    dataPathMissing cfgHappy wHappy = false :=
  training_requires_dataset_path cfgHappy tkTriv wHappy (by decide)

/-- C7: the run outcome is completely independent of the `--resume`
flag: the flag is parsed (line 36) but never read, so any two
invocations differing only in it behave identically. -/
theorem resume_flag_unused (cfg : Config) (tk : Tokenizer) (w : World) (r : ResumeMode) :
    mainModel { cfg with resume := r } tk w = mainModel cfg tk w := by
  cases cfg
  rfl

/-- Witness for C7: forcing `--resume never` on the happy run changes
nothing. -/
theorem resume_flag_unused_witness :
    mainModel { cfgHappy with resume := ResumeMode.never } tkTriv wHappy
      = mainModel cfgHappy tkTriv wHappy :=
  resume_flag_unused cfgHappy tkTriv wHappy ResumeMode.never

set_option maxRecDepth 16384 in
/-- C1 counterexample: a successful run whose resolved base-model
identifier is `meta-llama/Llama-3.2-1B-Instruct` (the script's own
default) still writes a Modelfile whose `FROM` line declares the
hardcoded `llama3:8b`, not the resolved identifier the adapter was
trained on. -/
theorem modelfile_not_resolved_base :
    (mainModel cfgHappy tkTriv wHappy).result = .ok 0
    ∧ (mainModel cfgHappy tkTriv wHappy).modelfileWritten = some modelfileContent
    ∧ resolvedBase cfgHappy = "meta-llama/Llama-3.2-1B-Instruct"
    ∧ pyStartsWith modelfileContent ("FROM " ++ resolvedBase cfgHappy ++ "\n") = false
    ∧ pyStartsWith modelfileContent "FROM llama3:8b\n" = true := by
  decide

/-- C1 (amended): every successful run (re)writes the ServingManifest
with the fixed content `modelfileContent`: a hardcoded base-model
declaration `FROM llama3:8b` (independent of the run's resolved
base-model identifier), the adapter's relative path, the fixed system
preamble, the prompt template, and the default inference parameters. -/
theorem modelfile_on_success (cfg : Config) (tk : Tokenizer) (w : World)
    (h : (mainModel cfg tk w).result = .ok 0) :
    (mainModel cfg tk w).modelfileWritten = some modelfileContent := by
  by_cases hd : dataPathMissing cfg w
  · simp [mainModel, hd] at h
  · cases hr : resumeDecision cfg.outdir w.hfOutEntries with
    | error e => simp [mainModel, hd, hr] at h
    | ok act =>
      cases ha : w.adapterExistsAfterSave with
      | false => simp [mainModel, hd, hr, ha] at h
      | true => simp [mainModel, hd, hr, ha]

/-- Witness for the amended C1 at the successful concrete run. -/
theorem modelfile_on_success_witness :
    (mainModel cfgHappy tkTriv wHappy).modelfileWritten = some modelfileContent :=
  modelfile_on_success cfgHappy tkTriv wHappy (by decide)

/-! ## Top-level handler theorems -/

lemma scanOutdirArgv_of_first (argv : List String) (i : Nat) (v : String)
    (hflag : argv[i]? = some "--outdir") (hv : argv[i + 1]? = some v)
    (hfirst : ∀ j, j < i → argv[j]? ≠ some "--outdir") :
    scanOutdirArgv argv = some v := by
  induction argv generalizing i with
  | nil => simp at hflag
  | cons a rest ih =>
    cases i with
    | zero =>
      simp only [List.getElem?_cons_zero, Option.some.injEq] at hflag
      cases rest with
      | nil => simp at hv
      | cons b t =>
        simp only [List.getElem?_cons_succ, List.getElem?_cons_zero,
          Option.some.injEq] at hv
        simp [scanOutdirArgv, hflag, hv]
    | succ n =>
      have ha : a ≠ "--outdir" := by
        have h0 := hfirst 0 (Nat.succ_pos n)
        simpa using h0
      simp only [scanOutdirArgv, if_neg ha]
      exact ih n (by simpa using hflag) (by simpa using hv)
        (fun j hj => by
          have := hfirst (j + 1) (Nat.succ_lt_succ hj)
          simpa using this)

/-- C8: for every exception escaping `main`, the top-level handler
re-raises, and appends the error text plus a newline to `error.txt`
inside the directory named after the first `--outdir` flag found by
scanning the raw argument vector (writing nothing when no such flag
value exists). -/
theorem topLevelHandler_spec (argv : List String) (msg : String) :
    (topLevelHandler argv msg).reraised = true
    ∧ (∀ d, scanOutdirArgv argv = some d →
        (topLevelHandler argv msg).errorWrite = some (joinPath d "error.txt", msg ++ "\n"))
    ∧ (scanOutdirArgv argv = none → (topLevelHandler argv msg).errorWrite = none)
    ∧ (∀ i v, argv[i]? = some "--outdir" → argv[i + 1]? = some v →
        (∀ j, j < i → argv[j]? ≠ some "--outdir") →
        (topLevelHandler argv msg).errorWrite = some (joinPath v "error.txt", msg ++ "\n")) := by
  refine ⟨?_, fun d hd => ?_, fun hn => ?_, fun i v h1 h2 h3 => ?_⟩
  · cases hs : scanOutdirArgv argv <;> simp [topLevelHandler, hs]
  · simp [topLevelHandler, hd]
  · simp [topLevelHandler, hn]
  · simp [topLevelHandler, scanOutdirArgv_of_first argv i v h1 h2 h3]

/-- Witness for C8 at a concrete argument vector and error message. -/
theorem topLevelHandler_spec_witness :
    (topLevelHandler ["train.py", "--outdir", "out"] "boom").reraised = true
    ∧ (topLevelHandler ["train.py", "--outdir", "out"] "boom").errorWrite
      = some (joinPath "out" "error.txt", "boom" ++ "\n") :=
  ⟨(topLevelHandler_spec ["train.py", "--outdir", "out"] "boom").1,
   (topLevelHandler_spec ["train.py", "--outdir", "out"] "boom").2.1 "out" (by decide)⟩

end Train
